import Mathlib

/-!
# Whale transaction monitor — verification of the ingestion core

Shallow embedding of the rate-budget gateway (`utils/alchemy_rpc.py`),
the provider-client error normalisation, and the per-chain pollers
(`chains/bitcoin_alchemy.py`, `chains/tron_alchemy.py`, `chains/polygon.py`,
`chains/solana_api.py`) and the persistence sink (`utils/supabase_writer.py`).

Machine time is modelled in integer milliseconds.  Monetary amounts and
prices are rationals.  Every Python `dict.get` with a possibly-missing key
becomes an `Option` field.
-/

namespace WhaleMonitor

/-- State of `AlchemyRateLimiter` (`utils/alchemy_rpc.py`, lines 30-41).
`window_start`, `last_log_time` are in milliseconds.  The `_LOG_INTERVAL`
bookkeeping is observational only but kept for fidelity. -/
structure Limiter where
  max_rps : Nat
  monthly_budget : Nat
  cu_used : Nat
  window_start : Nat
  requests_in_window : Nat
  last_log_time : Nat
deriving Repr, DecidableEq

/-- `_LOG_INTERVAL = 3600` seconds, in milliseconds. -/
def LOG_INTERVAL : Nat := 3600 * 1000

/-- `AlchemyRateLimiter.__init__`: fresh limiter at creation time `t0`. -/
def mkLimiter (max_rps monthly_cu_budget t0 : Nat) : Limiter :=
  { max_rps := max_rps
    monthly_budget := monthly_cu_budget
    cu_used := 0
    window_start := t0
    requests_in_window := 0
    last_log_time := t0 }

/-- `AlchemyRateLimiter.can_request` (lines 43-51).  Returns the boolean
answer together with the possibly-mutated state (the in-place window reset
persists even when the rate check then fails).  `now` is the value of
`time.time()` inside the critical section. -/
def can_request (now cu_cost : Nat) (s : Limiter) : Bool × Limiter :=
  if s.cu_used + cu_cost > s.monthly_budget then
    (false, s)
  else
    let s1 := if now - s.window_start ≥ 1000 then
        { s with window_start := now, requests_in_window := 0 }
      else s
    (decide (s1.requests_in_window < s1.max_rps), s1)

/-- `AlchemyRateLimiter.record_request` (lines 53-65).  The hourly logging
branch only touches `last_log_time`. -/
def record_request (now cu_cost : Nat) (s : Limiter) : Limiter :=
  let s1 := { s with
    cu_used := s.cu_used + cu_cost
    requests_in_window := s.requests_in_window + 1 }
  if now - s1.last_log_time ≥ LOG_INTERVAL then
    { s1 with last_log_time := now }
  else s1

/-- Outcome of one `wait_if_needed` call.  The Python loop (lines 67-71)
has exactly one exit: admission.  `stillWaiting` records that the supplied
schedule of attempt times ran out with the loop still spinning — the call
has not returned at all (there is no refusal exit in the source). -/
inductive AcquireResult where
  | admitted (at_time : Nat) (s : Limiter)
  | stillWaiting (s : Limiter)
deriving Repr, DecidableEq

/-- Final limiter state carried by an `AcquireResult`. -/
def AcquireResult.state : AcquireResult → Limiter
  | .admitted _ s => s
  | .stillWaiting s => s

/-- `AlchemyRateLimiter.wait_if_needed` (lines 67-71): retry `can_request`
until it passes, sleeping 0.05 s between attempts, then `record_request`.
`ts` is the schedule of clock readings for the successive attempts; the
second result component counts the `time.sleep(0.05)` calls executed. -/
def wait_if_needed (cu_cost : Nat) : List Nat → Limiter → AcquireResult × Nat
  | [], s => (.stillWaiting s, 0)
  | t :: rest, s =>
    match can_request t cu_cost s with
    | (true, s1) => (.admitted t (record_request t cu_cost s1), 0)
    | (false, s1) =>
      let r := wait_if_needed cu_cost rest s1
      (r.1, r.2 + 1)

/-- A sequence of gateway calls, each with its own attempt-time schedule and
CU cost, threaded through the shared limiter.  Returns the admission times
in order.  (A call whose schedule runs out contributes no admission.) -/
def run_calls : List (List Nat × Nat) → Limiter → List Nat × Limiter
  | [], s => ([], s)
  | (ts, cu) :: rest, s =>
    match wait_if_needed cu ts s with
    | (.admitted t s1, _) =>
      let r := run_calls rest s1
      (t :: r.1, r.2)
    | (.stillWaiting s1, _) => run_calls rest s1

/-- Membership of an admission time in the rolling one-second window
starting at `lo` (milliseconds). -/
def in_window (lo t : Nat) : Bool := lo ≤ t && t < lo + 1000

/-- The rolling-window property claimed by the spec: no rolling one-second
window ever contains more than `max_rps` admissions. -/
def rolling_bound (admitted : List Nat) (max_rps : Nat) : Prop :=
  ∀ lo, admitted.countP (in_window lo) ≤ max_rps

/-- Concrete limiter state with the monthly budget nearly exhausted:
budget 100 CU, 90 CU already used. -/
def exhausted : Limiter :=
  { max_rps := 2, monthly_budget := 100, cu_used := 90
    window_start := 0, requests_in_window := 0, last_log_time := 0 }

/-- Four back-to-back calls of cost 1 straddling the limiter's window reset
at t = 1000 ms, against a limiter with `max_rps = 2`. -/
def burst_calls : List (List Nat × Nat) :=
  [([900], 1), ([950], 1), ([1000], 1), ([1050], 1)]

/-- Joint gateway invariant: the configured ceilings are `M` and `B`, the
in-window counter respects the per-second ceiling and the used cost units
respect the monthly budget. -/
def GateInv (M B : Nat) (s : Limiter) : Prop :=
  s.max_rps = M ∧ s.monthly_budget = B ∧
  s.requests_in_window ≤ M ∧ s.cu_used ≤ B

/-- Body of a JSON-RPC response as `_rpc_call` inspects it: whether the
parsed dict carries an `error` key, and its optional `result` field. -/
structure RpcBody (α : Type) where
  hasError : Bool
  result : Option α
deriving Repr, DecidableEq

/-- What the transport hands back to `_rpc_call` / `_http_call`: either an
exception raised anywhere inside the `try` block, or a response with an
HTTP status code and the outcome of `resp.json()` (`none` when the body is
malformed and `json()` raises). -/
inductive HttpOutcome (β : Type) where
  | exn
  | resp (status : Nat) (body : Option β)
deriving Repr, DecidableEq

/-- `_rpc_call` (`utils/alchemy_rpc.py`, lines 98-117), after gateway
admission.  Only status 429 is checked; the body of any other status is
parsed, the provider `error` field maps to `None`, and otherwise
`data.get('result')` is returned.  Exceptions are caught and map to
`None`, so the Lean model is a total function. -/
def rpc_call {α : Type} (r : HttpOutcome (RpcBody α)) : Option α :=
  match r with
  | .exn => none
  | .resp status body =>
    if status = 429 then none
    else
      match body with
      | none => none
      | some data => if data.hasError then none else data.result

/-- `_http_call` (lines 120-131): only 429 is special-cased; the parsed
JSON body is returned as-is for every other status, with no error-field
check.  Exceptions (including a malformed body) map to `None`. -/
def http_call {β : Type} (r : HttpOutcome β) : Option β :=
  match r with
  | .exn => none
  | .resp status body => if status = 429 then none else body

/-- `PARSED_CACHE_MAX` (`chains/solana_api.py`, line 37). -/
def PARSED_CACHE_MAX : Nat := 500

/-- Cache insertion path of `fetch_solana_token_transfers` (lines 129-133):
the signature is known absent (line 123 checked membership first), the new
entry is appended (Python dicts preserve insertion order), and when the
size exceeds the cap the oldest keys are deleted down to the cap.  The cap
is a parameter here so the induction goes through; the source fixes it to
`PARSED_CACHE_MAX`. -/
def cache_insert {α : Type} (cap : Nat) (cache : List (String × α))
    (sig : String) (v : α) : List (String × α) :=
  let c := cache ++ [(sig, v)]
  if c.length > cap then c.drop (c.length - cap) else c

/-- A whole sequence of cache insertions starting from the empty cache. -/
def cache_run {α : Type} (cap : Nat) (inserts : List (String × α)) :
    List (String × α) :=
  inserts.foldl (fun c p => cache_insert cap c p.1 p.2) []

/-- One element of a `getSignaturesForAddress` response
(`chains/solana_api.py`).  `none` at the outer level models an entry that
is not a dict (line 102); `signature := none` models a missing or empty
signature field (line 104-106). -/
structure SigEntry where
  signature : Option String
  blockTime : Option Nat
deriving Repr, DecidableEq

/-- Lines 101-109 of `fetch_solana_token_transfers`: walk the newest-first
signature list, skipping malformed entries, stopping (`break`) at the
stored last-seen signature, collecting the new signatures. -/
def collect_new_signatures (last_sig : Option String) :
    List (Option SigEntry) → List String
  | [] => []
  | none :: rest => collect_new_signatures last_sig rest
  | some e :: rest =>
    match e.signature with
    | none => collect_new_signatures last_sig rest
    | some sig =>
      if last_sig = some sig then []
      else sig :: collect_new_signatures last_sig rest

/-- Lines 115-117: cursor seeding from the head entry when nothing new
was collected and no cursor exists (`first = sig_infos[0] if dict else
empty; cursor := first.get("signature")`). -/
def solana_seed_cursor (last_sig : Option String)
    (sig_infos : List (Option SigEntry)) : Option String :=
  match sig_infos.head? with
  | some (some e) => e.signature
  | some none => none
  | none => last_sig

/-- Lines 94-120 of `fetch_solana_token_transfers`, for one mint: decide
which signatures will be processed this cycle (oldest first, after the
`reverse` on line 111) and what the mint's cursor becomes.  An empty or
failed response (line 98) leaves everything unchanged.  When nothing new
was collected: a mint with no cursor is seeded from the head entry
(lines 115-118), otherwise nothing changes. -/
def solana_cycle_plan (last_sig : Option String)
    (sig_infos : List (Option SigEntry)) : List String × Option String :=
  if sig_infos.isEmpty then ([], last_sig)
  else
    match ((collect_new_signatures last_sig sig_infos).reverse).getLast? with
    | some last =>
      ((collect_new_signatures last_sig sig_infos).reverse, some last)
    | none =>
      if last_sig = none then ([], solana_seed_cursor last_sig sig_infos)
      else ([], last_sig)

/-- The newest-first signature response of the C5 scenario:
`[S5, S4, S3, S2]`. -/
def c5_sig_infos : List (Option SigEntry) :=
  [some ⟨some "S5", some 500⟩, some ⟨some "S4", some 400⟩,
   some ⟨some "S3", some 300⟩, some ⟨some "S2", some 200⟩]

/-- One iteration of `poll_bitcoin_blocks` (`chains/bitcoin_alchemy.py`,
lines 110-139) at the cursor level.  Input: the fetched tip (`none` when
`fetch_bitcoin_blockcount` failed).  Output: the new `_last_seen_height`
and the heights iterated this cycle (`range(last+1, current+1)`).  The
startup seeding (lines 103-105) is the `none` cursor case. -/
def btc_poll_step (cursor : Option Nat) (tip : Option Nat) :
    Option Nat × List Nat :=
  match tip with
  | none => (cursor, [])
  | some t =>
    match cursor with
    | none => (some t, [])
    | some c =>
      if t ≤ c then (some c, [])
      else (some t, List.range' (c + 1) (t - c))

/-- One iteration of `poll_tron_blocks` (`chains/tron_alchemy.py`, lines
173-208).  The outer `Option` is a failed/`block_header`-less
`getnowblock` response (line 176); the inner `Option` is
`raw_data.get("number")` (lines 180-185). -/
def tron_poll_step (cursor : Option Nat) (now_block : Option (Option Nat)) :
    Option Nat × List Nat :=
  match now_block with
  | none => (cursor, [])
  | some none => (cursor, [])
  | some (some t) =>
    match cursor with
    | none => (some t, [])
    | some c =>
      if t ≤ c then (some c, [])
      else (some t, List.range' (c + 1) (t - c))

/-- One iteration of `print_new_polygon_transfers` (`chains/polygon.py`,
lines 67-97) at the cursor level: new `last_block` plus the
`[last_block+1, tip]` range requested from `alchemy_getAssetTransfers`
(`last_block = tip` runs unconditionally after the fetch, line 94). -/
def polygon_poll_step (cursor : Option Nat) (tip : Option Nat) :
    Option Nat × Option (Nat × Nat) :=
  match tip with
  | none => (cursor, none)
  | some t =>
    match cursor with
    | none => (some t, none)
    | some c =>
      if t ≤ c then (some c, none)
      else (some t, some (c + 1, t))

/-- Cursor order: an unset cursor precedes anything; once set, a cursor may
only keep or increase its height, never become unset. -/
def cursor_le (a b : Option Nat) : Prop :=
  match a, b with
  | none, _ => True
  | some x, some y => x ≤ y
  | some _, none => False

/-- The cursor trajectory of a poller across a sequence of poll cycles with
the given fetched tips. -/
def cursor_trace {τ π : Type} (step : Option Nat → τ → Option Nat × π)
    (c0 : Option Nat) : List τ → List (Option Nat)
  | [] => [c0]
  | t :: ts => c0 :: cursor_trace step ((step c0 t).1) ts

/-- The normalized transfer event handed to `utils.dedup.handle_event` —
the Emission Boundary.  `timestamp := none` stands for the wall-clock
fallback (`time.time()`). -/
structure Event where
  blockchain : String
  tx_hash : String
  from_addr : String
  to_addr : String
  amount : Rat
  symbol : String
  usd_value : Rat
  timestamp : Option Rat
  source : String
deriving Repr, DecidableEq

/-- One hex digit, as Python `int(_, 16)` accepts it. -/
def hexDigit? (c : Char) : Option Nat :=
  if '0' ≤ c ∧ c ≤ '9' then some (c.toNat - '0'.toNat)
  else if 'a' ≤ c ∧ c ≤ 'f' then some (c.toNat - 'a'.toNat + 10)
  else if 'A' ≤ c ∧ c ≤ 'F' then some (c.toNat - 'A'.toNat + 10)
  else none

/-- Python `int(s, 16)`: optional `0x`/`0X` prefix, then hex digits;
`none` when the string is empty or has a non-hex character (the call
raises `ValueError`, which the decode loops catch). -/
def parse_hex_num (s : String) : Option Nat :=
  let cs := match s.toList with
    | '0' :: 'x' :: rest => rest
    | '0' :: 'X' :: rest => rest
    | cs => cs
  if cs.isEmpty then none
  else cs.foldl (fun acc c =>
    match acc, hexDigit? c with
    | some a, some d => some (a * 16 + d)
    | _, _ => none) (some 0)

/-- `int(data_hex, 16) if data_hex else 0` (tron_alchemy.py line 86). -/
def parse_data_hex (s : String) : Option Nat :=
  if s.isEmpty then some 0 else parse_hex_num s

/-- Whether `pre` is an initial segment of `l` (character-level helper for
Python's `in` substring test). -/
def charsHavePre : List Char → List Char → Bool
  | [], _ => true
  | _ :: _, [] => false
  | a :: pre, b :: l => a == b && charsHavePre pre l

/-- Whether `needle` occurs contiguously in the character list. -/
def charsContain (needle : List Char) : List Char → Bool
  | [] => charsHavePre needle []
  | c :: rest => charsHavePre needle (c :: rest) || charsContain needle rest

/-- Python `needle in haystack` on strings. -/
def strContains (haystack needle : String) : Bool :=
  charsContain needle.toList haystack.toList

/-- Python `s[-n:]`. -/
def strTakeRight (s : String) (n : Nat) : String :=
  ⟨s.toList.drop (s.toList.length - n)⟩

/-- Python `s.lstrip("0")`. -/
def lstrip_zeros (s : String) : String := ⟨s.toList.dropWhile (· = '0')⟩

/-- Python `s.zfill(40)`. -/
def zfill40 (s : String) : String :=
  ⟨List.replicate (40 - s.toList.length) '0' ++ s.toList⟩

/-- `scriptPubKey` of a Bitcoin output as `_process_block` reads it
(bitcoin_alchemy.py lines 54-59).  `address := none` models a missing or
empty (falsy) field. -/
structure ScriptPubKey where
  address : Option String
  addresses : List String
deriving Repr, DecidableEq

/-- One Bitcoin transaction output. -/
structure BtcVout where
  value : Rat
  scriptPubKey : ScriptPubKey
deriving Repr, DecidableEq

/-- One Bitcoin transaction input: the `prevout.scriptPubKey.address`
chain of `get`s (line 63), `none` when any link is missing/falsy. -/
structure BtcVin where
  prevout_address : Option String
deriving Repr, DecidableEq

/-- A Bitcoin transaction from a verbosity-2 block. -/
structure BtcTx where
  txid : String
  vin : List BtcVin
  vout : List BtcVout
deriving Repr, DecidableEq

/-- A decoded Bitcoin block (`getblock` verbosity 2). -/
structure BtcBlock where
  height : Nat
  time : Option Nat
  tx : List BtcTx
deriving Repr, DecidableEq

/-- Destination address selection (lines 55-59): prefer
`scriptPubKey.address`, else the first entry of `scriptPubKey.addresses`,
else empty. -/
def btc_to_addr (spk : ScriptPubKey) : String :=
  match spk.address with
  | some a => a
  | none =>
    match spk.addresses with
    | a :: _ => a
    | [] => ""

/-- Sender address selection (lines 61-64): first input's previous-output
address when present, else empty. -/
def btc_from_addr (tx : BtcTx) : String :=
  match tx.vin with
  | v :: _ => v.prevout_address.getD ""
  | [] => ""

/-- The per-output body of `_process_block` (lines 48-92): skip when
`value_btc < threshold_btc` where `threshold_btc = thr / btc_usd`,
otherwise build the event handed to `handle_event` (line 90). -/
def btc_out_event (thr btc_usd : Rat) (block : BtcBlock) (tx : BtcTx)
    (out : BtcVout) : Option Event :=
  if out.value < thr / btc_usd then none
  else some
    { blockchain := "bitcoin"
      tx_hash := tx.txid
      from_addr := if btc_from_addr tx = "" then "coinbase" else btc_from_addr tx
      to_addr := btc_to_addr out.scriptPubKey
      amount := out.value
      symbol := "BTC"
      usd_value := out.value * btc_usd
      timestamp := block.time.map (fun t => (t : Rat))
      source := "bitcoin_alchemy" }

/-- `_process_block` (lines 36-94): every output of every transaction,
filtered by the BTC-denominated threshold.  `thr` is
`GLOBAL_USD_THRESHOLD` and `btc_usd` the configured BTC price
(`config`/`data` modules, passed as parameters). -/
def btc_process_block (thr btc_usd : Rat) (block : BtcBlock) : List Event :=
  block.tx.flatMap (fun tx => tx.vout.filterMap (btc_out_event thr btc_usd block tx))

/-- `TRANSFER_TOPIC` (tron_alchemy.py line 30). -/
def TRANSFER_TOPIC : String :=
  "ddf252ad1be2c89b69c2b068fc378daa952ba7f163c4a11628f55a4df523b3ef"

/-- `TRON_USDT_CONTRACT` (line 26). -/
def TRON_USDT_CONTRACT : String := "TR7NHqjeKQxGTCi8q8ZY4pL8otSzgjLj6t"

/-- `TRON_USDC_CONTRACT` (line 27). -/
def TRON_USDC_CONTRACT : String := "TEkxiTehnzSmSe2XqrBj4w32RUN966rdz8"

/-- One TRC-20 event log entry. -/
structure TronLog where
  address : String
  topics : List String
  data : String
deriving Repr, DecidableEq

/-- One `callValueInfo` element of a Tron internal transaction
(`cv.get("callValue", 0)`). -/
structure CallValueEntry where
  callValue : Int
deriving Repr, DecidableEq

/-- One Tron internal transaction (lines 130-143). -/
structure TronInternalTx where
  caller_address : String
  transferTo_address : String
  callValueInfo : List CallValueEntry
deriving Repr, DecidableEq

/-- One element of `gettransactioninfobyblocknum` (lines 59-64). -/
structure TronTxInfo where
  id : String
  fee : Int
  log : List TronLog
  internal_transactions : List TronInternalTx
  blockTimeStamp : Option Nat
deriving Repr, DecidableEq

/-- `_tron_address_from_hex` (lines 39-50) normalises the payload (strip
`0x` everywhere, strip leading zeros, pad to 40 hex chars) and then
prefixes the 0x41 version byte and base58check-encodes via two SHA-256
rounds from external libraries (`hashlib`, `base58`).  The hash-based
encoding is modelled as an abstract tag on the normalised payload; no
claim depends on the base58 text itself. -/
def tron_address_from_hex (hex_addr : String) : String :=
  "b58c41" ++ zfill40 (lstrip_zeros (String.replace hex_addr "0x" ""))

/-- Symbol/decimals resolution for a TRC-20 log (lines 76-83). -/
def tron_symbol_decimals (contract_addr : String) : String × Nat :=
  if contract_addr.toLower = TRON_USDT_CONTRACT.toLower ∨
      strContains contract_addr.toLower
        "a614f803b6fd780986a42c78ec9c7f77e6ded13c" then
    ("USDT", 6)
  else if strContains contract_addr.toLower "cead2b" then
    ("USDC", 6)
  else
    ("TRC20", 18)

/-- `token_amount = raw_amount / 10 ** decimals` (line 87). -/
def tron_token_amount (contract_addr : String) (raw : Nat) : Rat :=
  (raw : Rat) / (10 : Rat) ^ (tron_symbol_decimals contract_addr).2

/-- `TOKEN_PRICES.get(symbol, usdt_price if symbol in ("USDT","USDC")
else 0)` where `usdt_price = TOKEN_PRICES.get("USDT", 1.0)`
(lines 55 and 88). -/
def tron_price (prices : String → Option Rat) (symbol : String) : Rat :=
  (prices symbol).getD
    (if symbol = "USDT" ∨ symbol = "USDC" then (prices "USDT").getD 1 else 0)

/-- `usd_value = token_amount * price` (line 89). -/
def tron_usd_value (prices : String → Option Rat) (contract_addr : String)
    (raw : Nat) : Rat :=
  tron_token_amount contract_addr raw *
    tron_price prices (tron_symbol_decimals contract_addr).1

/-- The per-log body of `_process_block_txinfo` (lines 66-127): topic
filter, symbol/decimals resolution, amount decode, USD threshold, and the
event handed to `handle_event` (line 125).  `prices` is the external
`TOKEN_PRICES` table. -/
def tron_log_event (thr : Rat) (prices : String → Option Rat) (tx_id : String)
    (ts : Option Nat) (lg : TronLog) : Option Event :=
  match lg.topics.head? with
  | none => none
  | some t0 =>
    if t0 ≠ TRANSFER_TOPIC then none
    else if lg.topics.length < 3 then none
    else
      match parse_data_hex lg.data with
      | none => none
      | some raw =>
        if tron_usd_value prices lg.address raw < thr then none
        else some
          { blockchain := "tron"
            tx_hash := tx_id
            from_addr := tron_address_from_hex (strTakeRight ((lg.topics.getD 1 "")) 40)
            to_addr := tron_address_from_hex (strTakeRight ((lg.topics.getD 2 "")) 40)
            amount := tron_token_amount lg.address raw
            symbol := (tron_symbol_decimals lg.address).1
            usd_value := tron_usd_value prices lg.address raw
            timestamp := ts.map (fun ms => (ms : Rat) / 1000)
            source := "tron_alchemy" }

/-- Native-TRX qualification in the internal-transaction scan
(lines 131-139): positive `callValue` whose USD value reaches the
threshold.  Such transfers are only printed and counted in `found`; no
event is constructed for them. -/
def tron_native_qualifies (thr trx_price : Rat) (cv : CallValueEntry) : Bool :=
  decide (0 < cv.callValue) &&
    !(decide ((cv.callValue : Rat) / 1000000 * trx_price < thr))

/-- One `TronTxInfo` scanned by `_process_block_txinfo`: the emitted
events (TRC-20 log path only) and the `found` counter, which also counts
qualifying native-TRX internal transfers. -/
def tron_txinfo_scan (thr : Rat) (prices : String → Option Rat)
    (info : TronTxInfo) : List Event × Nat :=
  let log_events := info.log.filterMap
    (tron_log_event thr prices info.id info.blockTimeStamp)
  let trx_price := (prices "TRX").getD (12 / 100)
  let native_found := info.internal_transactions.foldl
    (fun acc itx => acc + itx.callValueInfo.countP (tron_native_qualifies thr trx_price)) 0
  (log_events, log_events.length + native_found)

/-- `_process_block_txinfo` (lines 53-156) over the whole transaction-info
list: events are emitted in scan order (the loop appends), `found` sums
per-transaction counts. -/
def tron_process_block_txinfo (thr : Rat) (prices : String → Option Rat)
    (infos : List TronTxInfo) : List Event × Nat :=
  (infos.flatMap (fun info => (tron_txinfo_scan thr prices info).1),
   (infos.map (fun info => (tron_txinfo_scan thr prices info).2)).sum)

/-- A Bitcoin output of 100/13 BTC: at a price of 65000 USD/BTC its USD
value is exactly 500000. -/
def c4_out : BtcVout :=
  { value := 100 / 13
    scriptPubKey := { address := some "bc1qdest", addresses := [] } }

/-- The transaction around `c4_out` (no inputs: a coinbase-like tx). -/
def c4_tx : BtcTx := { txid := "btc-eq", vin := [], vout := [c4_out] }

/-- A Bitcoin block with a single output whose USD value is exactly the
threshold. -/
def c4_block : BtcBlock :=
  { height := 800000, time := some 1700000000, tx := [c4_tx] }

/-- A minimal price table: only TRX priced (at the source's 0.12 default). -/
def c4_prices : String → Option Rat :=
  fun s => if s = "TRX" then some (12 / 100) else none

/-- The event `_process_block` builds for `c4_out` inside `c4_block` at
threshold 500000 and price 65000. -/
def c4_event : Event :=
  { blockchain := "bitcoin", tx_hash := "btc-eq", from_addr := "coinbase",
    to_addr := "bc1qdest", amount := 100 / 13, symbol := "BTC",
    usd_value := 100 / 13 * 65000, timestamp := some 1700000000,
    source := "bitcoin_alchemy" }

/-- A Tron transaction info carrying no TRC-20 logs and a single native
TRX internal transfer of 10,000,000 TRX (10^13 sun), worth 1.2M USD at
the default 0.12 USD/TRX — far above a 500k threshold. -/
def c4_tron_native : TronTxInfo :=
  { id := "trx-big"
    fee := 0
    log := []
    internal_transactions :=
      [{ caller_address := "41aa", transferTo_address := "41bb"
         callValueInfo := [{ callValue := 10000000000000 }] }]
    blockTimeStamp := some 1700000000000 }

/-- A well-formed TRC-20 Transfer log: topic 0 is the Transfer signature,
three topics, and a data field of 10^18 raw units
(hex `de0b6b3a7640000`). -/
def c4_tron_log : TronLog :=
  { address := "41a614f803b6fd780986a42c78ec9c7f77e6ded13c"
    topics := [TRANSFER_TOPIC, "from-topic", "to-topic"]
    data := "de0b6b3a7640000" }

/-- A Tron transaction info whose only content is `c4_tron_log`. -/
def c4_tron_info : TronTxInfo :=
  { id := "trc20-big", fee := 0, log := [c4_tron_log]
    internal_transactions := [], blockTimeStamp := some 1700000000000 }

/-- A price table valuing every symbol at 1 USD. -/
def c4_one : String → Option Rat := fun _ => some 1

/-- `rawContract` of an Alchemy asset transfer (polygon.py lines
102-103, 115). -/
structure RawContract where
  address : Option String
  value : Option String
deriving Repr, DecidableEq

/-- One element of the `alchemy_getAssetTransfers` response list as
`print_new_polygon_transfers` reads it (lines 100-129).  `blockNum` is
the hex field decoded to a number for ordering statements. -/
structure PolyTransfer where
  rawContract : Option RawContract
  value : Option Rat
  from_addr : Option String
  to_addr : Option String
  hash : Option String
  blockNum : Nat
deriving Repr, DecidableEq

/-- The params dict built by `fetch_asset_transfers`
(`utils/alchemy_rpc.py`, lines 164-174). -/
structure AssetTransferParams where
  fromBlock : String
  toBlock : String
  category : List String
  withMetadata : Bool
  excludeZeroValue : Bool
  maxCount : String
  order : String
  contractAddresses : Option (List String)
deriving Repr, DecidableEq

/-- `fetch_asset_transfers`' request parameters: note `order := "desc"`. -/
def asset_transfer_params (from_block to_block : String)
    (contract_addresses : Option (List String))
    (category : Option (List String)) : AssetTransferParams :=
  { fromBlock := from_block
    toBlock := to_block
    category := category.getD ["erc20"]
    withMetadata := true
    excludeZeroValue := true
    maxCount := "0x3e8"
    order := "desc"
    contractAddresses := contract_addresses }

/-- Value decode (lines 113-120): structured `value` field, else the raw
hex `rawContract.value` decimal-adjusted; decode failure skips the
transfer. -/
def polygon_value (decimals : Nat) (tx : PolyTransfer) : Option Rat :=
  match tx.value with
  | some v => some v
  | none =>
    match parse_hex_num ((tx.rawContract.bind (·.value)).getD "0x0") with
    | some raw => some ((raw : Rat) / (10 : Rat) ^ decimals)
    | none => none

/-- The per-transfer body of `print_new_polygon_transfers` (lines
100-154): contract lookup, price lookup (0 skips), value decode, USD
threshold, and the event handed to `handle_event` (line 154).
`contract_map` is the configured lowercased-contract → (symbol, decimals)
table; `prices` is `TOKEN_PRICES`. -/
def polygon_tx_event (thr : Rat) (prices : String → Option Rat)
    (contract_map : String → Option (String × Nat)) (tx : PolyTransfer) :
    Option Event :=
  match contract_map ((tx.rawContract.bind (·.address)).getD "").toLower with
  | none => none
  | some sd =>
    if (prices sd.1).getD 0 = 0 then none
    else
      match polygon_value sd.2 tx with
      | none => none
      | some value =>
        if value * (prices sd.1).getD 0 < thr then none
        else some
          { blockchain := "polygon"
            tx_hash := tx.hash.getD ""
            from_addr := tx.from_addr.getD ""
            to_addr := tx.to_addr.getD ""
            amount := value
            symbol := sd.1
            usd_value := value * (prices sd.1).getD 0
            timestamp := none
            source := "polygon_alchemy" }

/-- The transfer loop (lines 100-160): events are emitted in the order
the provider returned the transfers. -/
def polygon_process_transfers (thr : Rat) (prices : String → Option Rat)
    (contract_map : String → Option (String × Nat))
    (transfers : List PolyTransfer) : List Event :=
  transfers.filterMap (polygon_tx_event thr prices contract_map)

/-- The block numbers of the transfers that emit, in emission order. -/
def polygon_emitted_blocks (thr : Rat) (prices : String → Option Rat)
    (contract_map : String → Option (String × Nat))
    (transfers : List PolyTransfer) : List Nat :=
  (transfers.filter
    (fun tx => (polygon_tx_event thr prices contract_map tx).isSome)).map
    (·.blockNum)

/-- The signatures of a Solana response in provider (newest-first) order,
malformed entries skipped. -/
def entry_sigs (infos : List (Option SigEntry)) : List String :=
  infos.filterMap (fun oe => oe.bind (·.signature))

/-- Contract table for the C8 scenario: every contract resolves to the
monitored USDC token (6 decimals). -/
def c8_cmap : String → Option (String × Nat) :=
  fun _ => some ("USDC", 6)

/-- Price table for the C8 scenario. -/
def c8_prices : String → Option Rat :=
  fun s => if s = "USDC" then some 1 else none

/-- Two qualifying transfers as the provider returns them with
`order = "desc"`: block 10 first, block 5 second. -/
def c8_transfers : List PolyTransfer :=
  [{ rawContract := some { address := some "0xUSDC", value := none }
     value := some 2000000, from_addr := some "0xa", to_addr := some "0xb"
     hash := some "A", blockNum := 10 },
   { rawContract := some { address := some "0xUSDC", value := none }
     value := some 1500000, from_addr := some "0xc", to_addr := some "0xd"
     hash := some "B", blockNum := 5 }]

/-- A signature rank (e.g. slot height) for ordering statements about the
C5/C8 Solana scenario. -/
def c8_rank : String → Nat :=
  fun s =>
    if s = "S5" then 5 else if s = "S4" then 4
    else if s = "S3" then 3 else if s = "S2" then 2 else 0

/-- Event dict fields read by `_map_event_to_whale_row` and
`store_transaction` (`utils/supabase_writer.py`).  `none` models an
absent key; a present-but-empty string is `some ""`. -/
structure StoreEvent where
  tx_hash : Option String
  hash : Option String
  timestamp : Option Rat
  classification : Option String
  confidence : Option Rat
  whale_score : Option Rat
  reasoning : Option String
  from_addr : Option String
  from_address : Option String
  to_addr : Option String
  to_address : Option String
  estimated_usd : Option Rat
  usd_value : Option Rat
  value_usd : Option Rat
  blockchain : Option String
  symbol : Option String
  token_symbol : Option String
deriving Repr, DecidableEq

/-- The optional enrichment dict (`classification_data`).  A passed-in
empty dict is falsy in Python and behaves like `none`. -/
structure ClassificationData where
  classification : Option String
  confidence : Option Rat
  whale_score : Option Rat
  reasoning : Option String
  whale_address : Option String
  counterparty_address : Option String
  counterparty_type : Option String
  from_label : Option String
  to_label : Option String
deriving Repr, DecidableEq

/-- The `whale_transactions` row (lines 117-134).  `timestamp` is the
normalised Unix-seconds value; `none` stands for the `now()` fallback
(the ISO-8601 formatting itself is external `datetime` behaviour). -/
structure WhaleRow where
  transaction_hash : String
  timestamp : Option Rat
  blockchain : String
  token_symbol : String
  classification : String
  usd_value : Rat
  whale_score : Rat
  whale_address : String
  counterparty_address : String
  counterparty_type : String
  from_address : String
  to_address : String
  reasoning : String
  confidence : Rat
  from_label : String
  to_label : String
deriving Repr, DecidableEq

/-- The Python `a or b or c or 0` chain over `.get(_, 0)` results: the
first present non-zero value, else 0 (lines 111-115). -/
def first_nonzero : List (Option Rat) → Rat
  | [] => 0
  | some x :: rest => if x = 0 then first_nonzero rest else x
  | none :: rest => first_nonzero rest

/-- Lines 78-79: strip the `PROBABLE_` marker (Python `replace` removes
every occurrence, guarded by the prefix test). -/
def strip_probable (c : String) : String :=
  if c.startsWith "PROBABLE_" then c.replace "PROBABLE_" "" else c

/-- Lines 76-81: uppercase, strip `PROBABLE_`, and coerce anything outside
{BUY, SELL, TRANSFER} to TRANSFER. -/
def normalize_classification (c : String) : String :=
  if strip_probable c.toUpper = "BUY" ∨ strip_probable c.toUpper = "SELL" ∨
      strip_probable c.toUpper = "TRANSFER" then
    strip_probable c.toUpper
  else "TRANSFER"

/-- Lines 59-74: where classification/confidence/whale-score/reasoning
come from — the enrichment dict when truthy, else the event's own
`classification` key, else defaults. -/
def row_classification_source (event : StoreEvent)
    (cd : Option ClassificationData) : String × Rat × Rat × String :=
  match cd with
  | some c =>
    (c.classification.getD "TRANSFER", c.confidence.getD 0,
     c.whale_score.getD 0, c.reasoning.getD "")
  | none =>
    match event.classification with
    | some cl =>
      (cl, event.confidence.getD 0, event.whale_score.getD 0,
       event.reasoning.getD "")
    | none => ("TRANSFER", 0, 0, "")

/-- Lines 50-57: numeric positive timestamps are kept (milliseconds
rescaled to seconds); anything else falls back to `now()` (`none`). -/
def row_timestamp (raw_ts : Option Rat) : Option Rat :=
  match raw_ts with
  | some t =>
    if 0 < t then some (if t > 10 ^ 12 then t / 1000 else t) else none
  | none => none

/-- Lines 93-98: the five address/label fields taken from a truthy
enrichment dict, else empty strings. -/
def cd_whale_fields (cd : Option ClassificationData) :
    String × String × String × String × String :=
  match cd with
  | some c =>
    (c.whale_address.getD "", c.counterparty_address.getD "",
     c.counterparty_type.getD "", c.from_label.getD "", c.to_label.getD "")
  | none => ("", "", "", "", "")

/-- Lines 100-109: whale-address fallback by (already-normalised)
classification; returns (whale_address, counterparty_address). -/
def apply_whale_fallback (classification from_addr to_addr : String)
    (w : String × String × String × String × String) : String × String :=
  if w.1 = "" then
    if classification = "BUY" then (to_addr, from_addr)
    else if classification = "SELL" then (from_addr, to_addr)
    else (from_addr, w.2.1)
  else (w.1, w.2.1)

/-- `s.lower() if s else ''`. -/
def lower_or_empty (s : String) : String :=
  if s = "" then "" else s.toLower

/-- `_map_event_to_whale_row` (lines 38-134). -/
def map_event_to_whale_row (event : StoreEvent)
    (cd : Option ClassificationData) : WhaleRow :=
  { transaction_hash := event.tx_hash.getD (event.hash.getD "")
    timestamp := row_timestamp event.timestamp
    blockchain := (event.blockchain.getD "unknown").toLower
    token_symbol := (event.symbol.getD (event.token_symbol.getD "")).toUpper
    classification :=
      normalize_classification (row_classification_source event cd).1
    usd_value :=
      first_nonzero [event.estimated_usd, event.usd_value, event.value_usd]
    whale_score := (row_classification_source event cd).2.2.1
    whale_address :=
      lower_or_empty (apply_whale_fallback
        (normalize_classification (row_classification_source event cd).1)
        (event.from_addr.getD (event.from_address.getD ""))
        (event.to_addr.getD (event.to_address.getD ""))
        (cd_whale_fields cd)).1
    counterparty_address :=
      lower_or_empty (apply_whale_fallback
        (normalize_classification (row_classification_source event cd).1)
        (event.from_addr.getD (event.from_address.getD ""))
        (event.to_addr.getD (event.to_address.getD ""))
        (cd_whale_fields cd)).2
    counterparty_type := (cd_whale_fields cd).2.2.1
    from_address :=
      lower_or_empty (event.from_addr.getD (event.from_address.getD ""))
    to_address :=
      lower_or_empty (event.to_addr.getD (event.to_address.getD ""))
    reasoning :=
      if (row_classification_source event cd).2.2.2 = "" then ""
      else ((row_classification_source event cd).2.2.2).take 1000
    confidence := (row_classification_source event cd).2.1
    from_label := (cd_whale_fields cd).2.2.2.1
    to_label := (cd_whale_fields cd).2.2.2.2 }

/-- `store_transaction` (lines 137-181).  `client_ok` models a
successfully initialised Supabase client; `sink` models the upsert call
returning whether `result.data` was truthy (an upsert exception also
yields `false`).  The second component is the row written, `none` when no
write was attempted. -/
def store_transaction (client_ok : Bool) (sink : WhaleRow → Bool)
    (event : StoreEvent) (cd : Option ClassificationData) :
    Bool × Option WhaleRow :=
  if !client_ok then (false, none)
  else if (map_event_to_whale_row event cd).transaction_hash = "" then
    (false, none)
  else if (map_event_to_whale_row event cd).token_symbol = "" then
    (false, none)
  else
    (sink (map_event_to_whale_row event cd),
     some (map_event_to_whale_row event cd))

/-- A store event whose mapped row has an empty transaction hash (the
`tx_hash` key is present but empty, and there is no `hash` key). -/
def c10_event : StoreEvent :=
  { tx_hash := some "", hash := none, timestamp := none
    classification := none, confidence := none, whale_score := none
    reasoning := none, from_addr := some "0xFrom", from_address := none
    to_addr := some "0xTo", to_address := none, estimated_usd := none
    usd_value := some 123456, value_usd := none, blockchain := some "polygon"
    symbol := some "usdc", token_symbol := none }

/-- Enrichment data carrying a `PROBABLE_buy` classification. -/
def c10_cd : ClassificationData :=
  { classification := some "PROBABLE_buy", confidence := some (9 / 10)
    whale_score := some 5, reasoning := some "test"
    whale_address := none, counterparty_address := none
    counterparty_type := none, from_label := none, to_label := none }

end WhaleMonitor

namespace WhaleMonitor

theorem can_request_budget_fail (now cu_cost : Nat) (s : Limiter)
    (h : s.monthly_budget < s.cu_used + cu_cost) :
    can_request now cu_cost s = (false, s) := by
  simp [can_request, h]

/-- When the monthly-budget gate fails, `wait_if_needed` never admits, never
changes the state, and sleeps once per scheduled attempt. -/
theorem wait_if_needed_budget_exceeded (cu_cost : Nat) (s : Limiter)
    (h : s.monthly_budget < s.cu_used + cu_cost) :
    ∀ ts : List Nat, wait_if_needed cu_cost ts s = (.stillWaiting s, ts.length) := by
  intro ts
  induction ts with
  | nil => rfl
  | cons t rest ih =>
    simp [wait_if_needed, can_request_budget_fail t cu_cost s h, ih]

theorem can_request_max_rps (now cu_cost : Nat) (s : Limiter) :
    (can_request now cu_cost s).2.max_rps = s.max_rps := by
  simp only [can_request]; split_ifs <;> rfl

theorem can_request_monthly_budget (now cu_cost : Nat) (s : Limiter) :
    (can_request now cu_cost s).2.monthly_budget = s.monthly_budget := by
  simp only [can_request]; split_ifs <;> rfl

theorem can_request_cu_used (now cu_cost : Nat) (s : Limiter) :
    (can_request now cu_cost s).2.cu_used = s.cu_used := by
  simp only [can_request]; split_ifs <;> rfl

theorem can_request_riw_le (now cu_cost : Nat) (s : Limiter) :
    (can_request now cu_cost s).2.requests_in_window ≤ s.requests_in_window := by
  simp only [can_request]; split_ifs <;> simp

/-- A passing `can_request` leaves the in-window count strictly below the
per-second ceiling. -/
theorem can_request_true_riw (now cu_cost : Nat) (s : Limiter)
    (h : (can_request now cu_cost s).1 = true) :
    (can_request now cu_cost s).2.requests_in_window < s.max_rps := by
  simp only [can_request] at h ⊢
  split_ifs at h ⊢ <;> simp_all

/-- A passing `can_request` certifies the budget headroom. -/
theorem can_request_true_budget (now cu_cost : Nat) (s : Limiter)
    (h : (can_request now cu_cost s).1 = true) :
    s.cu_used + cu_cost ≤ s.monthly_budget := by
  by_contra hb
  rw [can_request_budget_fail now cu_cost s (by omega)] at h
  simp at h

theorem record_request_max_rps (now cu_cost : Nat) (s : Limiter) :
    (record_request now cu_cost s).max_rps = s.max_rps := by
  simp only [record_request]; split_ifs <;> rfl

theorem record_request_monthly_budget (now cu_cost : Nat) (s : Limiter) :
    (record_request now cu_cost s).monthly_budget = s.monthly_budget := by
  simp only [record_request]; split_ifs <;> rfl

theorem record_request_cu_used (now cu_cost : Nat) (s : Limiter) :
    (record_request now cu_cost s).cu_used = s.cu_used + cu_cost := by
  simp only [record_request]; split_ifs <;> rfl

theorem record_request_riw (now cu_cost : Nat) (s : Limiter) :
    (record_request now cu_cost s).requests_in_window = s.requests_in_window + 1 := by
  simp only [record_request]; split_ifs <;> rfl

/-- One admission attempt sequence preserves the gateway invariant. -/
theorem wait_if_needed_inv (M B cu_cost : Nat) :
    ∀ (ts : List Nat) (s : Limiter), GateInv M B s →
      GateInv M B (wait_if_needed cu_cost ts s).1.state := by
  intro ts
  induction ts with
  | nil => intro s h; exact h
  | cons t rest ih =>
    intro s h
    obtain ⟨hM, hB, hriw, hcu⟩ := h
    rcases hcr : can_request t cu_cost s with ⟨b, s1⟩
    have hmax : s1.max_rps = s.max_rps := by
      have := can_request_max_rps t cu_cost s; rwa [hcr] at this
    have hbud : s1.monthly_budget = s.monthly_budget := by
      have := can_request_monthly_budget t cu_cost s; rwa [hcr] at this
    have hcu1 : s1.cu_used = s.cu_used := by
      have := can_request_cu_used t cu_cost s; rwa [hcr] at this
    cases b with
    | true =>
      have hlt : s1.requests_in_window < s.max_rps := by
        have := can_request_true_riw t cu_cost s (by rw [hcr])
        rwa [hcr] at this
      have hok : s.cu_used + cu_cost ≤ s.monthly_budget :=
        can_request_true_budget t cu_cost s (by rw [hcr])
      simp only [wait_if_needed, hcr, AcquireResult.state]
      refine ⟨?_, ?_, ?_, ?_⟩
      · rw [record_request_max_rps, hmax, hM]
      · rw [record_request_monthly_budget, hbud, hB]
      · rw [record_request_riw]; omega
      · rw [record_request_cu_used, hcu1]; omega
    | false =>
      have hriw1 : s1.requests_in_window ≤ s.requests_in_window := by
        have := can_request_riw_le t cu_cost s; rwa [hcr] at this
      simp only [wait_if_needed, hcr]
      exact ih s1 ⟨hmax.trans hM, hbud.trans hB, le_trans hriw1 hriw, hcu1 ▸ hcu⟩

/-- A whole call sequence preserves the gateway invariant. -/
theorem run_calls_inv (M B : Nat) :
    ∀ (calls : List (List Nat × Nat)) (s : Limiter), GateInv M B s →
      GateInv M B (run_calls calls s).2 := by
  intro calls
  induction calls with
  | nil => intro s h; exact h
  | cons c rest ih =>
    intro s h
    obtain ⟨ts, cu⟩ := c
    have hw := wait_if_needed_inv M B cu ts s h
    rcases hr : wait_if_needed cu ts s with ⟨r, n⟩
    rw [hr] at hw
    cases r with
    | admitted t s1 =>
      simp only [AcquireResult.state] at hw
      simp only [run_calls, hr]
      exact ih s1 hw
    | stillWaiting s1 =>
      simp only [AcquireResult.state] at hw
      simp only [run_calls, hr]
      exact ih s1 hw

/-- C1 (counterexample).  The claim says that when the requested cost would
exceed the monthly budget, `wait_if_needed` "fails outright — it returns
refusal without consuming any cost units and without waiting — rather than
blocking the caller".  On the `exhausted` state (budget 100, 90 used, cost
25) the call instead executes all 50 scheduled retry sleeps and has still
not returned: the loop has no refusal exit, so the caller blocks. -/
theorem C1_counterexample :
    wait_if_needed 25 (List.replicate 50 0) exhausted =
      (.stillWaiting exhausted, 50) := by decide

/-- C1 (amended).  When used cost plus the requested cost exceeds the
monthly budget, the Gateway's `wait_if_needed` never admits the call and
never consumes cost units (the state is returned unchanged), but it does
not return a refusal: it keeps retrying, sleeping once per attempt, for as
long as the clock schedule lasts. -/
theorem C1_budget_exhaustion_blocks (cu_cost : Nat) (s : Limiter)
    (h : s.monthly_budget < s.cu_used + cu_cost) (ts : List Nat) :
    wait_if_needed cu_cost ts s = (.stillWaiting s, ts.length) :=
  wait_if_needed_budget_exceeded cu_cost s h ts

theorem C1_witness :
    exhausted.monthly_budget < exhausted.cu_used + 25 ∧
    wait_if_needed 25 [0, 50] exhausted = (.stillWaiting exhausted, 2) :=
  ⟨by decide, C1_budget_exhaustion_blocks 25 exhausted (by decide) [0, 50]⟩

/-- C2 (counterexample).  The claim bounds admissions within any *rolling*
one-second window by `max_rps`.  With `max_rps = 2`, four cost-1 calls at
900 ms, 950 ms, 1000 ms and 1050 ms are all admitted (the limiter's window
resets at 1000 ms), so the rolling window starting at 900 ms contains four
admissions. -/
theorem C2_counterexample :
    ¬ rolling_bound (run_calls burst_calls (mkLimiter 2 1000000 0)).1 2 := by
  intro h
  have h9 := h 900
  revert h9
  decide

/-- C2 (amended).  The per-second ceiling holds with respect to the
limiter's own reset windows: after any sequence of gateway calls starting
from a fresh limiter, the count of admissions recorded in the current
window never exceeds `max_rps` (a rolling one-second window straddling a
reset can see up to twice that, as the counterexample shows). -/
theorem C2_reset_window_bound (M B t0 : Nat) (calls : List (List Nat × Nat)) :
    (run_calls calls (mkLimiter M B t0)).2.requests_in_window ≤ M :=
  (run_calls_inv M B calls (mkLimiter M B t0)
    ⟨rfl, rfl, Nat.zero_le M, Nat.zero_le B⟩).2.2.1

/-- C3.  Starting from a fresh limiter, cumulative recorded cost units
never exceed the monthly budget, and a call whose cost would cross the
budget leaves `cu_used` untouched (it is never partially admitted) and is
never admitted. -/
theorem C3_budget_never_exceeded :
    (∀ (M B t0 : Nat) (calls : List (List Nat × Nat)),
      (run_calls calls (mkLimiter M B t0)).2.cu_used ≤ B) ∧
    (∀ (cu_cost : Nat) (ts : List Nat) (s : Limiter),
      s.monthly_budget < s.cu_used + cu_cost →
      (wait_if_needed cu_cost ts s).1.state.cu_used = s.cu_used ∧
      ∀ (t : Nat) (st : Limiter),
        (wait_if_needed cu_cost ts s).1 ≠ .admitted t st) := by
  constructor
  · intro M B t0 calls
    exact (run_calls_inv M B calls (mkLimiter M B t0)
      ⟨rfl, rfl, Nat.zero_le M, Nat.zero_le B⟩).2.2.2
  · intro cu_cost ts s h
    rw [wait_if_needed_budget_exceeded cu_cost s h ts]
    exact ⟨rfl, fun t st hcon => by simp at hcon⟩

theorem C3_witness :
    ((run_calls [([0], 25)] (mkLimiter 2 100 0)).2.cu_used ≤ 100) ∧
    (wait_if_needed 25 [0] exhausted).1.state.cu_used = exhausted.cu_used :=
  ⟨C3_budget_never_exceeded.1 2 100 0 [([0], 25)],
   (C3_budget_never_exceeded.2 25 [0] exhausted (by decide)).1⟩

/-- C7 (counterexample).  The claim says both provider-client calls return
`None` whenever the response status is non-2xx.  But `_rpc_call` only
checks status 429: a status-500 response whose body parses and has no
`error` key returns the `result` field.  And `_http_call` never checks a
provider-reported `error` field: the body is passed through. -/
theorem C7_counterexample :
    rpc_call (HttpOutcome.resp 500 (some (RpcBody.mk false (some 7)))) = some 7 ∧
    http_call (HttpOutcome.resp 500 (some (RpcBody.mk true (some 3)))) =
      some (RpcBody.mk true (some 3)) :=
  ⟨rfl, rfl⟩

/-- C7 (amended).  `_rpc_call` returns `None` exactly on transport
exceptions, status 429, malformed bodies, a provider `error` field, or a
missing `result` field; any other status with a clean body returns the
`result` field even when the status is not 2xx.  `_http_call` returns
`None` exactly on transport exceptions, status 429 and malformed bodies,
and passes every other parsed body through unexamined.  Neither ever
raises: both are total functions of the transport outcome. -/
theorem C7_error_normalisation {α β : Type} :
    (rpc_call (α := α) .exn = none) ∧
    (∀ b : Option (RpcBody α), rpc_call (.resp 429 b) = none) ∧
    (∀ st : Nat, rpc_call (α := α) (.resp st none) = none) ∧
    (∀ (st : Nat) (d : RpcBody α), d.hasError = true →
      rpc_call (.resp st (some d)) = none) ∧
    (∀ (st : Nat) (d : RpcBody α), st ≠ 429 → d.hasError = false →
      rpc_call (.resp st (some d)) = d.result) ∧
    (http_call (β := β) .exn = none) ∧
    (∀ b : Option β, http_call (.resp 429 b) = none) ∧
    (∀ (st : Nat) (b : Option β), st ≠ 429 → http_call (.resp st b) = b) := by
  refine ⟨rfl, fun b => rfl, fun st => ?_, fun st d hd => ?_,
    fun st d hst hd => ?_, rfl, fun b => rfl, fun st b hst => ?_⟩
  · simp [rpc_call]
  · simp [rpc_call, hd]
  · simp [rpc_call, hst, hd]
  · simp [http_call, hst]

theorem C7_witness :
    rpc_call (HttpOutcome.resp 500 (some (RpcBody.mk (α := Nat) true (some 1)))) = none ∧
    http_call (HttpOutcome.resp 500 (some (4 : Nat))) = some 4 :=
  ⟨(C7_error_normalisation (α := Nat) (β := Nat)).2.2.2.1 500 ⟨true, some 1⟩ rfl,
   (C7_error_normalisation (α := Nat) (β := Nat)).2.2.2.2.2.2.2 500 (some 4)
     (by decide)⟩

theorem cache_run_concat {α : Type} (cap : Nat) (l : List (String × α))
    (x : String × α) :
    cache_run cap (l ++ [x]) = cache_insert cap (cache_run cap l) x.1 x.2 := by
  simp [cache_run, List.foldl_append]

/-- Folding any insertion sequence through the bounded cache keeps exactly
the newest `cap` entries, in insertion order. -/
theorem cache_run_eq_drop {α : Type} (cap : Nat) (hcap : 0 < cap) :
    ∀ l : List (String × α), cache_run cap l = l.drop (l.length - cap) := by
  intro l
  induction l using List.reverseRecOn with
  | nil => simp [cache_run]
  | append_singleton l x ih =>
    rw [cache_run_concat, ih]
    rcases Nat.lt_or_ge l.length cap with hn | hn
    · have h0 : l.length - cap = 0 := by omega
      have h1 : ¬ l.length + 1 > cap := by omega
      have h2 : l.length + 1 - cap = 0 := by omega
      simp [cache_insert, h0, h1, h2, List.length_append]
    · have hpre : (l.drop (l.length - cap)).length = cap := by
        rw [List.length_drop]; omega
      simp only [cache_insert, List.length_append, hpre]
      rw [if_pos (by simp : cap + [(x.1, x.2)].length > cap)]
      have hd1 : cap + [(x.1, x.2)].length - cap = 1 := by simp
      rw [hd1]
      rw [List.drop_append_of_le_length (by omega : 1 ≤ (l.drop (l.length - cap)).length)]
      rw [List.drop_drop]
      rw [List.drop_append_of_le_length (by simp; omega : l.length + [x].length - cap ≤ l.length)]
      have harith : l.length - cap + 1 = l.length + [x].length - cap := by simp; omega
      simp [harith]

/-- C9.  After every insertion sequence the Solana parsed-transaction cache
holds exactly the most recent `PARSED_CACHE_MAX = 500` entries in
insertion order — so it never exceeds the cap after an insertion
completes, and everything evicted is exactly the oldest-inserted. -/
theorem C9_cache_bounded {α : Type} (inserts : List (String × α)) :
    cache_run PARSED_CACHE_MAX inserts =
      inserts.drop (inserts.length - PARSED_CACHE_MAX) ∧
    (cache_run PARSED_CACHE_MAX inserts).length ≤ PARSED_CACHE_MAX := by
  have h := cache_run_eq_drop PARSED_CACHE_MAX (by decide) inserts
  refine ⟨h, ?_⟩
  rw [h, List.length_drop]
  omega

/-- C5.  With last-seen signature S3 and the newest-first provider response
[S5, S4, S3, S2], exactly S4 and S5 are scheduled for processing, in that
(oldest-first) order, the cursor becomes S5, and S3 is the exclusive
boundary (it is not reprocessed). -/
theorem C5_solana_cursor_scenario :
    solana_cycle_plan (some "S3") c5_sig_infos = (["S4", "S5"], some "S5") := by
  decide

theorem btc_poll_step_mono (c : Option Nat) (tip : Option Nat) :
    cursor_le c (btc_poll_step c tip).1 := by
  cases tip with
  | none => cases c <;> simp [btc_poll_step, cursor_le]
  | some t =>
    cases c with
    | none => simp [btc_poll_step, cursor_le]
    | some x =>
      simp only [btc_poll_step]
      split_ifs <;> simp [cursor_le] <;> omega

theorem tron_poll_step_mono (c : Option Nat) (now_block : Option (Option Nat)) :
    cursor_le c (tron_poll_step c now_block).1 := by
  cases now_block with
  | none => cases c <;> simp [tron_poll_step, cursor_le]
  | some inner =>
    cases inner with
    | none => cases c <;> simp [tron_poll_step, cursor_le]
    | some t =>
      cases c with
      | none => simp [tron_poll_step, cursor_le]
      | some x =>
        simp only [tron_poll_step]
        split_ifs <;> simp [cursor_le] <;> omega

theorem polygon_poll_step_mono (c : Option Nat) (tip : Option Nat) :
    cursor_le c (polygon_poll_step c tip).1 := by
  cases tip with
  | none => cases c <;> simp [polygon_poll_step, cursor_le]
  | some t =>
    cases c with
    | none => simp [polygon_poll_step, cursor_le]
    | some x =>
      simp only [polygon_poll_step]
      split_ifs <;> simp [cursor_le] <;> omega

theorem cursor_trace_head {τ π : Type} (step : Option Nat → τ → Option Nat × π)
    (c0 : Option Nat) (ts : List τ) :
    (cursor_trace step c0 ts).head? = some c0 := by
  cases ts <;> rfl

/-- Any poll step that never rewinds the cursor yields a monotone cursor
trajectory. -/
theorem cursor_trace_chain {τ π : Type} (step : Option Nat → τ → Option Nat × π)
    (mono : ∀ c t, cursor_le c (step c t).1) :
    ∀ (tips : List τ) (c0 : Option Nat),
      List.Chain' cursor_le (cursor_trace step c0 tips) := by
  intro tips
  induction tips with
  | nil => intro c0; simp [cursor_trace]
  | cons t ts ih =>
    intro c0
    rw [cursor_trace, List.chain'_cons']
    refine ⟨?_, ih _⟩
    intro b hb
    rw [cursor_trace_head] at hb
    cases hb
    exact mono c0 t

/-- C6.  For the block-height pollers (Bitcoin, Tron, Polygon) the cursor
trajectory over any sequence of poll cycles is non-decreasing in the
`cursor_le` order — a set cursor is only ever replaced by a greater or
equal height — and from an unset cursor the first successful tip fetch
seeds the cursor to exactly that tip, never to a lower historical
height. -/
theorem C6_cursor_monotone :
    (∀ (c0 : Option Nat) (tips : List (Option Nat)),
      List.Chain' cursor_le (cursor_trace btc_poll_step c0 tips)) ∧
    (∀ (c0 : Option Nat) (tips : List (Option (Option Nat))),
      List.Chain' cursor_le (cursor_trace tron_poll_step c0 tips)) ∧
    (∀ (c0 : Option Nat) (tips : List (Option Nat)),
      List.Chain' cursor_le (cursor_trace polygon_poll_step c0 tips)) ∧
    (∀ t : Nat, (btc_poll_step none (some t)).1 = some t) ∧
    (∀ t : Nat, (tron_poll_step none (some (some t))).1 = some t) ∧
    (∀ t : Nat, (polygon_poll_step none (some t)).1 = some t) :=
  ⟨fun c0 tips => cursor_trace_chain btc_poll_step btc_poll_step_mono tips c0,
   fun c0 tips => cursor_trace_chain tron_poll_step tron_poll_step_mono tips c0,
   fun c0 tips => cursor_trace_chain polygon_poll_step polygon_poll_step_mono tips c0,
   fun _ => rfl, fun _ => rfl, fun _ => rfl⟩

/-- A Bitcoin output that produces an event has its USD value at or above
the threshold (and the event records `value * price`). -/
theorem btc_out_event_some_usd (thr btc_usd : Rat) (hp : 0 < btc_usd)
    (block : BtcBlock) (tx : BtcTx) (out : BtcVout) (e : Event)
    (h : btc_out_event thr btc_usd block tx out = some e) :
    e.usd_value = out.value * btc_usd ∧ thr ≤ e.usd_value := by
  unfold btc_out_event at h
  by_cases hv : out.value < thr / btc_usd
  · rw [if_pos hv] at h
    exact absurd h (by simp)
  · rw [if_neg hv] at h
    injection h with h
    subst h
    exact ⟨rfl, (div_le_iff₀ hp).mp (not_lt.mp hv)⟩

/-- A TRC-20 log that produces an event has its USD value at or above the
threshold. -/
theorem tron_log_event_some_usd (thr : Rat) (prices : String → Option Rat)
    (tx_id : String) (ts : Option Nat) (lg : TronLog) (e : Event)
    (h : tron_log_event thr prices tx_id ts lg = some e) :
    thr ≤ e.usd_value := by
  unfold tron_log_event at h
  split at h
  case _ => exact absurd h (by simp)
  case _ =>
    split_ifs at h with h1 h2
    rcases hp : parse_data_hex lg.data with _ | raw <;> rw [hp] at h <;>
      simp only [] at h
    case _ => exact absurd h (by simp)
    case _ =>
      split_ifs at h with h3
      injection h with h
      subst h
      exact not_lt.mp h3

/-- Evaluating the Bitcoin path on the boundary block: the output worth
exactly the threshold produces exactly one event. -/
theorem c4_block_events :
    btc_process_block 500000 65000 c4_block = [c4_event] := by
  norm_num [btc_process_block, c4_block, c4_tx, c4_out, c4_event,
    btc_out_event, btc_from_addr, btc_to_addr,
    List.filterMap_cons, List.filterMap_nil]

/-- Evaluating the Tron path on a transaction whose only content is a
native TRX internal transfer worth 1.2M USD (threshold 500k): the `found`
counter registers it, but no event reaches the Emission Boundary. -/
theorem c4_tron_eval :
    (tron_process_block_txinfo 500000 c4_prices [c4_tron_native]).1 = [] ∧
    (tron_process_block_txinfo 500000 c4_prices [c4_tron_native]).2 = 1 := by
  norm_num [tron_process_block_txinfo, tron_txinfo_scan, c4_tron_native,
    c4_prices, tron_native_qualifies, List.countP_cons, List.countP_nil,
    List.filterMap_nil]

/-- C4 (counterexample).  The claim requires emission only for USD value
*strictly greater* than the threshold.  On a block whose single output is
worth exactly the 500000 threshold (100/13 BTC at 65000 USD/BTC), the
Bitcoin path emits the event anyway (it skips only when
`value_btc < threshold_btc`). -/
theorem C4_counterexample :
    ¬ (∀ e ∈ btc_process_block 500000 65000 c4_block,
        (500000 : Rat) < e.usd_value) := by
  intro hall
  have hm := hall c4_event (by rw [c4_block_events]; exact List.mem_singleton_self _)
  norm_num [c4_event] at hm

/-- The symbol/decimals table resolves every contract to one of three
entries. -/
theorem tron_symbol_decimals_cases (a : String) :
    tron_symbol_decimals a = ("USDT", 6) ∨ tron_symbol_decimals a = ("USDC", 6) ∨
    tron_symbol_decimals a = ("TRC20", 18) := by
  unfold tron_symbol_decimals
  split_ifs <;> simp

/-- C4 (amended).  For the Bitcoin output path and the Tron TRC-20 log
path, an event is emitted if and only if its computed USD value is
greater than *or equal to* the configured threshold (a value exactly at
the threshold is emitted): every emitted event meets the threshold, and
every qualifying output / well-formed qualifying Transfer log produces an
event.  The Tron native-TRX internal-transaction path emits no event to
the Emission Boundary at all — it only prints and increments the `found`
counter, as the concrete qualifying transfer shows. -/
theorem C4_threshold_boundary :
    (∀ (thr btc_usd : Rat), 0 < btc_usd → ∀ (block : BtcBlock),
      ∀ e ∈ btc_process_block thr btc_usd block, thr ≤ e.usd_value) ∧
    (∀ (thr btc_usd : Rat), 0 < btc_usd →
      ∀ (block : BtcBlock) (tx : BtcTx) (out : BtcVout),
      tx ∈ block.tx → out ∈ tx.vout → thr ≤ out.value * btc_usd →
      ∃ e ∈ btc_process_block thr btc_usd block,
        e.tx_hash = tx.txid ∧ e.usd_value = out.value * btc_usd) ∧
    (∀ (thr : Rat) (prices : String → Option Rat) (infos : List TronTxInfo),
      ∀ e ∈ (tron_process_block_txinfo thr prices infos).1, thr ≤ e.usd_value) ∧
    (∀ (thr : Rat) (prices : String → Option Rat) (infos : List TronTxInfo)
        (info : TronTxInfo) (lg : TronLog) (raw : Nat),
      info ∈ infos → lg ∈ info.log →
      lg.topics.head? = some TRANSFER_TOPIC → 3 ≤ lg.topics.length →
      parse_data_hex lg.data = some raw →
      thr ≤ tron_usd_value prices lg.address raw →
      ∃ e ∈ (tron_process_block_txinfo thr prices infos).1,
        e.tx_hash = info.id ∧
        e.usd_value = tron_usd_value prices lg.address raw) ∧
    ((tron_process_block_txinfo 500000 c4_prices [c4_tron_native]).1 = [] ∧
      (tron_process_block_txinfo 500000 c4_prices [c4_tron_native]).2 = 1) := by
  refine ⟨?_, ?_, ?_, ?_, c4_tron_eval⟩
  · intro thr p hp block e he
    obtain ⟨tx, _, hout⟩ := List.mem_flatMap.mp he
    obtain ⟨out, _, hev⟩ := List.mem_filterMap.mp hout
    exact (btc_out_event_some_usd thr p hp block tx out e hev).2
  · intro thr p hp block tx out htx hout hle
    have hnv : ¬ out.value < thr / p := not_lt.mpr ((div_le_iff₀ hp).mpr hle)
    have he : btc_out_event thr p block tx out = some
        { blockchain := "bitcoin"
          tx_hash := tx.txid
          from_addr := if btc_from_addr tx = "" then "coinbase" else btc_from_addr tx
          to_addr := btc_to_addr out.scriptPubKey
          amount := out.value
          symbol := "BTC"
          usd_value := out.value * p
          timestamp := block.time.map (fun t => (t : Rat))
          source := "bitcoin_alchemy" } := by
      simp [btc_out_event, hnv]
    exact ⟨_, List.mem_flatMap.mpr ⟨tx, htx, List.mem_filterMap.mpr ⟨out, hout, he⟩⟩,
      rfl, rfl⟩
  · intro thr prices infos e he
    obtain ⟨info, _, hlog⟩ := List.mem_flatMap.mp he
    obtain ⟨lg, _, hev⟩ := List.mem_filterMap.mp hlog
    exact tron_log_event_some_usd thr prices info.id info.blockTimeStamp lg e hev
  · intro thr prices infos info lg raw hinfo hlg h0 hlen hparse hle
    have hev : tron_log_event thr prices info.id info.blockTimeStamp lg = some
        { blockchain := "tron", tx_hash := info.id
          from_addr := tron_address_from_hex (strTakeRight (lg.topics.getD 1 "") 40)
          to_addr := tron_address_from_hex (strTakeRight (lg.topics.getD 2 "") 40)
          amount := tron_token_amount lg.address raw
          symbol := (tron_symbol_decimals lg.address).1
          usd_value := tron_usd_value prices lg.address raw
          timestamp := info.blockTimeStamp.map (fun ms => (ms : Rat) / 1000)
          source := "tron_alchemy" } := by
      unfold tron_log_event
      simp only [h0]
      rw [if_neg (by simp), if_neg (by omega)]
      simp only [hparse]
      rw [if_neg (not_lt.mpr hle)]
    exact ⟨_, List.mem_flatMap.mpr ⟨info, hinfo,
      List.mem_filterMap.mpr ⟨lg, hlg, hev⟩⟩, rfl, rfl⟩

theorem C4_witness :
    (∀ e ∈ btc_process_block 500000 65000 c4_block,
      (500000 : Rat) ≤ e.usd_value) ∧
    (∃ e ∈ btc_process_block 500000 65000 c4_block,
      e.tx_hash = "btc-eq" ∧ e.usd_value = (100 / 13 : Rat) * 65000) ∧
    (∃ e ∈ (tron_process_block_txinfo 1 c4_one [c4_tron_info]).1,
      e.tx_hash = "trc20-big" ∧
      e.usd_value = tron_usd_value c4_one c4_tron_log.address
        1000000000000000000) :=
  ⟨C4_threshold_boundary.1 500000 65000 (by norm_num) c4_block,
   C4_threshold_boundary.2.1 500000 65000 (by norm_num) c4_block c4_tx c4_out
     (by simp [c4_block]) (by simp [c4_tx]) (by norm_num [c4_out]),
   C4_threshold_boundary.2.2.2.1 1 c4_one [c4_tron_info] c4_tron_info
     c4_tron_log 1000000000000000000
     (List.mem_singleton_self _) (by simp [c4_tron_info]) rfl (by decide)
     (by decide)
     (by
       rcases tron_symbol_decimals_cases c4_tron_log.address with h | h | h <;>
         simp [tron_usd_value, tron_token_amount, tron_price, c4_one, h] <;>
         norm_num)⟩

/-- Everything the newest-first walk collects comes from the response, in
response order. -/
theorem collect_sublist (last : Option String) :
    ∀ infos : List (Option SigEntry),
      List.Sublist (collect_new_signatures last infos) (entry_sigs infos) := by
  intro infos
  induction infos with
  | nil => simp [collect_new_signatures, entry_sigs]
  | cons oe rest ih =>
    cases oe with
    | none => simpa [collect_new_signatures, entry_sigs] using ih
    | some e =>
      cases hsig : e.signature with
      | none => simpa [collect_new_signatures, entry_sigs, hsig] using ih
      | some sig =>
        by_cases hl : last = some sig
        · simp [collect_new_signatures, entry_sigs, hsig, hl]
        · simp only [collect_new_signatures, entry_sigs, hsig,
            List.filterMap_cons, Option.some_bind, if_neg hl]
          exact List.Sublist.cons₂ _ ih

/-- A cycle plan either processes nothing or processes exactly the
collected newest-first prefix, reversed. -/
theorem solana_plan_cases (last : Option String)
    (infos : List (Option SigEntry)) :
    (solana_cycle_plan last infos).1 = [] ∨
    (solana_cycle_plan last infos).1 =
      (collect_new_signatures last infos).reverse := by
  unfold solana_cycle_plan
  by_cases h0 : infos.isEmpty
  · rw [if_pos h0]; left; rfl
  · rw [if_neg h0]
    rcases hg : ((collect_new_signatures last infos).reverse).getLast? with _ | l <;>
      simp only [hg]
    · by_cases h1 : last = none
      · rw [if_pos h1]; left; rfl
      · rw [if_neg h1]; left; rfl
    · right; trivial

/-- C8 (counterexample).  The Polygon poller hands `handle_event` the
transfers in the order the provider returned them, and
`fetch_asset_transfers` requests `order = "desc"` (newest first): with two
qualifying transfers in blocks 10 and 5 the emission order is block 10
then block 5 — the event of the earlier block is emitted last, refuting
oldest-first emission for the Polygon poller. -/
theorem C8_counterexample :
    ¬ List.Pairwise (fun a b : Nat => a ≤ b)
        (polygon_emitted_blocks 1000000 c8_prices c8_cmap c8_transfers) := by
  have he : polygon_emitted_blocks 1000000 c8_prices c8_cmap c8_transfers
      = [10, 5] := by
    norm_num [polygon_emitted_blocks, polygon_tx_event, polygon_value,
      c8_transfers, c8_cmap, c8_prices, List.filter]
  rw [he]
  decide

/-- C8 (amended).  Within one poll cycle, the Bitcoin and Tron pollers
process blocks in strictly ascending height order, and the Solana poller
processes new signatures oldest-first (for any rank under which the
provider response is newest-first, the processing plan is ascending).
The Polygon poller instead requests `order = "desc"` and emits in
provider order, so a provider-compliant (descending) response is emitted
newest-first, not oldest-first. -/
theorem C8_emission_order :
    (∀ (c tip : Option Nat), List.Pairwise (· < ·) (btc_poll_step c tip).2) ∧
    (∀ (c : Option Nat) (nb : Option (Option Nat)),
      List.Pairwise (· < ·) (tron_poll_step c nb).2) ∧
    (∀ (ρ : String → Nat) (last : Option String)
        (infos : List (Option SigEntry)),
      List.Pairwise (fun a b => ρ b ≤ ρ a) (entry_sigs infos) →
      List.Pairwise (fun a b => ρ a ≤ ρ b) (solana_cycle_plan last infos).1) ∧
    (∀ (fb tb : String) (ca cat : Option (List String)),
      (asset_transfer_params fb tb ca cat).order = "desc") ∧
    (∀ (thr : Rat) (prices : String → Option Rat)
        (cmap : String → Option (String × Nat)) (transfers : List PolyTransfer),
      List.Pairwise (fun a b => b ≤ a) (transfers.map (fun t => t.blockNum)) →
      List.Pairwise (fun a b => b ≤ a)
        (polygon_emitted_blocks thr prices cmap transfers)) := by
  refine ⟨?_, ?_, ?_, fun _ _ _ _ => rfl, ?_⟩
  · intro c tip
    cases tip with
    | none => simp [btc_poll_step]
    | some t =>
      cases c with
      | none => simp [btc_poll_step]
      | some x =>
        simp only [btc_poll_step]
        split_ifs
        · simp
        · exact List.pairwise_lt_range' (x + 1) (t - x)
  · intro c nb
    rcases nb with _ | nb
    · simp [tron_poll_step]
    · rcases nb with _ | t
      · simp [tron_poll_step]
      · cases c with
        | none => simp [tron_poll_step]
        | some x =>
          simp only [tron_poll_step]
          split_ifs
          · simp
          · exact List.pairwise_lt_range' (x + 1) (t - x)
  · intro ρ last infos hs
    rcases solana_plan_cases last infos with h | h <;> rw [h]
    · simp
    · rw [List.pairwise_reverse]
      exact List.Pairwise.sublist (collect_sublist last infos) hs
  · intro thr prices cmap transfers hs
    simp only [polygon_emitted_blocks]
    exact List.Pairwise.sublist
      (List.Sublist.map _ (List.filter_sublist _)) hs

theorem C8_witness :
    List.Pairwise (fun a b => c8_rank a ≤ c8_rank b)
      (solana_cycle_plan (some "S3") c5_sig_infos).1 ∧
    List.Pairwise (fun a b : Nat => b ≤ a)
      (polygon_emitted_blocks 1000000 c8_prices c8_cmap c8_transfers) :=
  ⟨C8_emission_order.2.2.1 c8_rank (some "S3") c5_sig_infos (by decide),
   C8_emission_order.2.2.2.2 1000000 c8_prices c8_cmap c8_transfers (by decide)⟩

/-- The normalisation of lines 76-81 always lands in
{BUY, SELL, TRANSFER}. -/
theorem normalize_classification_mem (c : String) :
    normalize_classification c = "BUY" ∨ normalize_classification c = "SELL" ∨
    normalize_classification c = "TRANSFER" := by
  unfold normalize_classification
  split_ifs with h
  · rcases h with h | h | h <;> simp [h]
  · simp

/-- C10.  A mapped row with an empty transaction hash or an empty token
symbol makes `store_transaction` return `False` without attempting any
write (the upsert sink is never consulted), and the mapped row's
classification is always one of BUY, SELL, TRANSFER — every other input,
including `PROBABLE_`-prefixed values, is normalised. -/
theorem C10_store_guards :
    (∀ (client_ok : Bool) (sink : WhaleRow → Bool) (event : StoreEvent)
        (cd : Option ClassificationData),
      ((map_event_to_whale_row event cd).transaction_hash = "" ∨
        (map_event_to_whale_row event cd).token_symbol = "") →
      store_transaction client_ok sink event cd = (false, none)) ∧
    (∀ (event : StoreEvent) (cd : Option ClassificationData),
      (map_event_to_whale_row event cd).classification = "BUY" ∨
      (map_event_to_whale_row event cd).classification = "SELL" ∨
      (map_event_to_whale_row event cd).classification = "TRANSFER") := by
  constructor
  · intro client_ok sink event cd hbad
    unfold store_transaction
    cases client_ok with
    | false => rfl
    | true =>
      rcases hbad with h | h
      · simp [h]
      · by_cases h1 : (map_event_to_whale_row event cd).transaction_hash = ""
        · simp [h1]
        · simp [h1, h]
  · intro event cd
    simp only [map_event_to_whale_row]
    exact normalize_classification_mem _

theorem C10_witness :
    store_transaction true (fun _ => true) c10_event none = (false, none) ∧
    ((map_event_to_whale_row c10_event (some c10_cd)).classification = "BUY" ∨
      (map_event_to_whale_row c10_event (some c10_cd)).classification = "SELL" ∨
      (map_event_to_whale_row c10_event (some c10_cd)).classification =
        "TRANSFER") :=
  ⟨C10_store_guards.1 true (fun _ => true) c10_event none (Or.inl rfl),
   C10_store_guards.2 c10_event (some c10_cd)⟩

end WhaleMonitor
